import Mathlib

/-!
Shallow embedding of the EchoHire backend (FastAPI + Firestore) for claim
verification: the interview lifecycle endpoints of `backend/main.py`, the
Gemini analysis service of `backend/ai_services.py`, and the conversational
setup assistant of `backend/vapi_workflows.py`.

Conventions used throughout:
* Firestore collections are association lists keyed by document id; `set`
  replaces a whole document, `update` merges fields into an existing one.
* Python string fields that may be absent or empty (`if value:` truthiness)
  are modelled as `Option String`, with `none` standing for absent/empty.
* Every external call (Vapi HTTP, Gemini generation, URL download) is a
  parameter carrying that call's result for the invocation being modelled;
  `none` models an exception, a timeout or a missing value.
* Timestamps and freshly generated UUIDs are parameters.
-/

namespace EchoHire

/-! ### String primitives

Python's `str.lower`, `str.strip`, substring membership (`in`), slicing and
lexicographic comparison, defined over `List Char` so that they reduce in the
kernel. -/

def lowerChar (c : Char) : Char :=
  if 'A' ≤ c ∧ c ≤ 'Z' then Char.ofNat (c.toNat + 32) else c

def strLower (s : String) : String := ⟨s.data.map lowerChar⟩

def strTrim (s : String) : String :=
  ⟨((s.data.dropWhile Char.isWhitespace).reverse.dropWhile Char.isWhitespace).reverse⟩

def strContainsAux (pat : List Char) : List Char → Bool
  | [] => pat.isEmpty
  | c :: rest => pat.isPrefixOf (c :: rest) || strContainsAux pat rest

def strContains (s pat : String) : Bool := strContainsAux pat.data s.data

def strTake (s : String) (n : Nat) : String := ⟨s.data.take n⟩

def charListLt : List Char → List Char → Bool
  | [], [] => false
  | [], _ :: _ => true
  | _ :: _, [] => false
  | a :: as, b :: bs => if a < b then true else if b < a then false else charListLt as bs

def strLt (a b : String) : Bool := charListLt a.data b.data

/-- Python interpolates `None` into an f-string as the text `None`. -/
def pyStr (o : Option String) : String :=
  match o with
  | some s => s
  | none => "None"

/-! ### Store primitives -/

def getDoc {β : Type} : List (String × β) → String → Option β
  | [], _ => none
  | (k, v) :: rest, key => if k = key then some v else getDoc rest key

/-- Firestore `set`: replace the document at `key`, creating it if absent. -/
def setDoc {β : Type} : List (String × β) → String → β → List (String × β)
  | [], key, v => [(key, v)]
  | (k, w) :: rest, key, v =>
      if k = key then (key, v) :: rest else (k, w) :: setDoc rest key v

/-- Firestore `update`: merge fields into the document at `key`; a missing
document raises, which callers catch, so it is a no-op here. -/
def updateDoc {β : Type} (f : β → β) : List (String × β) → String → List (String × β)
  | [], _ => []
  | (k, v) :: rest, key =>
      if k = key then (k, f v) :: rest else (k, v) :: updateDoc f rest key

/-! ### vapi_workflows.py: the conversational interview-setup assistant -/

inductive InterviewPhase
  | greeting
  | collectingJobRole
  | collectingInterviewType
  | collectingExperienceLevel
  | generatingQuestions
  | interviewStarting
  | askingQuestion
  | listeningForAnswer
  | providingFeedback
  | interviewComplete
deriving DecidableEq

structure UserPreferences where
  jobRole : Option String
  interviewType : Option String
  experienceLevel : Option String
deriving DecidableEq

structure InterviewQuestion where
  id : Nat
  question : String
  category : String
  difficulty : String
deriving DecidableEq

structure InterviewSession where
  sessionId : String
  userPreferences : UserPreferences
  questions : List InterviewQuestion
  currentQuestionIndex : Nat
  phase : InterviewPhase
  answers : List String
  feedback : List String
deriving DecidableEq

/-- One well-formed entry of the JSON array the question-generation prompt
asks Gemini for. -/
structure QData where
  question : String
  category : String
  difficulty : String
deriving DecidableEq

/-- The outcome of the Gemini call inside `generate_interview_questions`:
no usable model, the call raised, the reply was not a valid JSON question
array, or a parsed list of entries. -/
inductive QGenOutcome
  | noModel
  | apiError
  | parseFailure
  | success (qs : List QData)
deriving DecidableEq

def getFallbackQuestions (p : UserPreferences) : List InterviewQuestion :=
  let role := pyStr p.jobRole
  [ ⟨1, s!"Tell me about yourself and your background in {role}.", "General", "Easy"⟩,
    ⟨2, s!"What interests you most about working as a {role}?", "Motivation", "Easy"⟩,
    ⟨3, "Describe a challenging project you've worked on and how you overcame obstacles.",
      "Problem Solving", "Medium"⟩,
    ⟨4, "Where do you see yourself in your career in the next 3-5 years?",
      "Career Goals", "Medium"⟩,
    ⟨5, s!"What do you think are the most important skills for a {role}?",
      "Technical Knowledge", "Medium"⟩ ]

def generateInterviewQuestions (p : UserPreferences) (o : QGenOutcome) : List InterviewQuestion :=
  match o with
  | .success qs => qs.enum.map (fun pr => ⟨pr.1 + 1, pr.2.question, pr.2.category, pr.2.difficulty⟩)
  | _ => getFallbackQuestions p

def fallbackFeedbackText : String :=
  "Good answer! You provided relevant information. To strengthen your response, consider adding more specific examples or metrics to demonstrate your impact. Keep up the great work!"

/-- `_generate_feedback`: the Gemini reply stripped on success, a fixed
encouraging sentence when the model is unavailable or the call raises. -/
def generateFeedback (providerReply : Option String) : String :=
  match providerReply with
  | some t => strTrim t
  | none => fallbackFeedbackText

def greetingReplyText : String :=
  "Hello! Welcome to EchoHire's AI Interview Coach. I'm excited to help you practice for your upcoming interviews!\n\nI'll start by asking you three quick questions to personalize your interview experience, and then we'll dive into a mock interview with real-time feedback.\n\nLet's begin! What job role are you interviewing for? For example, Software Engineer, Product Manager, Data Scientist, etc."

def questionTextAt (qs : List InterviewQuestion) (i : Nat) : String :=
  match qs.get? i with
  | some q => q.question
  | none => ""

/-- `_handle_phase_logic`: one conversational turn. `qo` and `fb` carry this
turn's Gemini outcomes for question generation and feedback. -/
def handlePhaseLogic (s : InterviewSession) (userInput : String)
    (qo : QGenOutcome) (fb : Option String) : InterviewSession × String :=
  match s.phase with
  | .greeting =>
      ({ s with phase := .collectingJobRole }, greetingReplyText)
  | .collectingJobRole =>
      let role := strTrim userInput
      let s' := { s with
        userPreferences := { s.userPreferences with jobRole := some role },
        phase := .collectingInterviewType }
      (s', s!"Perfect! A {role} role - that's exciting!\n\nNow, what type of interview would you like to practice? I can help you with:\n\n- Technical interviews - focusing on coding, system design, and technical skills\n- Behavioral interviews - situational questions, soft skills, and culture fit\n- Mixed interviews - a combination of both technical and behavioral questions\n\nWhich type would you prefer?")
  | .collectingInterviewType =>
      let itype := strTrim userInput
      let s' := { s with
        userPreferences := { s.userPreferences with interviewType := some itype },
        phase := .collectingExperienceLevel }
      (s', s!"Great choice! {itype} interviews are really valuable to practice.\n\nOne last question - what's your experience level?\n\n- Entry Level - 0 to 2 years of experience\n- Mid Level - 3 to 5 years of experience\n- Senior Level - 6 or more years of experience\n\nThis helps me tailor the questions to the right difficulty level for you.")
  | .collectingExperienceLevel =>
      let level := strTrim userInput
      let prefs := { s.userPreferences with experienceLevel := some level }
      let qs := generateInterviewQuestions prefs qo
      let s' := { s with
        userPreferences := prefs,
        questions := qs,
        phase := .interviewStarting }
      let itype := pyStr prefs.interviewType
      let role := pyStr prefs.jobRole
      let firstQ := questionTextAt qs 0
      (s', s!"Perfect! Thank you for that information.\n\nI'm now generating a personalized {itype} interview specifically designed for a {level} {role}. This will just take a moment...\n\nExcellent! I've created 5 tailored questions for you.\n\nWelcome to your personalized mock interview! Here's how this will work:\n- I'll ask you 5 questions, one at a time\n- Take your time to answer each question thoughtfully\n- After each answer, I'll provide constructive feedback\n- Answer as if this were a real interview - be detailed and specific\n\nReady? Let's begin with your first question:\n\n{firstQ}\n\nTake your time and answer as thoroughly as you'd like!")
  | .interviewStarting =>
      let feedback := generateFeedback fb
      let idx := s.currentQuestionIndex + 1
      let s1 := { s with
        answers := s.answers ++ [userInput],
        feedback := s.feedback ++ [feedback],
        currentQuestionIndex := idx }
      if idx < s.questions.length then
        let s' := { s1 with phase := .askingQuestion }
        let num := idx + 1
        let nextQ := questionTextAt s.questions idx
        (s', s!"{feedback}\n\nGreat! Let's move on to question {num}:\n\n{nextQ}")
      else
        let s' := { s1 with phase := .interviewComplete }
        let role := pyStr s.userPreferences.jobRole
        let level := pyStr s.userPreferences.experienceLevel
        (s', s!"{feedback}\n\nCongratulations! You've completed your mock interview!\n\n## Overall Performance Summary\n\nYou've successfully answered all 5 questions for the {role} position. Here's my overall assessment:\n\n**Strengths:** You demonstrated good communication skills and showed relevant experience for a {level} level candidate.\n\n**Areas for Improvement:** Continue practicing articulating your thoughts clearly and providing specific examples from your experience.\n\n**Next Steps:** Keep practicing with different types of questions, and remember to prepare specific examples that showcase your skills and achievements.\n\nThank you for using EchoHire's AI Interview Coach! I hope this practice session has helped boost your confidence. Best of luck with your real interviews - you've got this!")
  | .askingQuestion =>
      let feedback := generateFeedback fb
      let idx := s.currentQuestionIndex + 1
      let s1 := { s with
        answers := s.answers ++ [userInput],
        feedback := s.feedback ++ [feedback],
        currentQuestionIndex := idx }
      if idx < s.questions.length then
        let num := idx + 1
        let nextQ := questionTextAt s.questions idx
        (s1, s!"{feedback}\n\nExcellent! Let's continue with question {num}:\n\n{nextQ}")
      else
        let s' := { s1 with phase := .interviewComplete }
        let role := pyStr s.userPreferences.jobRole
        let level := pyStr s.userPreferences.experienceLevel
        (s', s!"{feedback}\n\nFantastic! You've completed your mock interview!\n\n## Overall Performance Summary\n\nYou've successfully answered all 5 questions for the {role} position. Here's my overall assessment:\n\n**Strengths:** You showed strong communication skills and provided relevant examples throughout the interview.\n\n**Areas for Improvement:** Keep practicing structuring your answers and providing concrete examples with measurable results.\n\n**Key Takeaway:** You're well-prepared for {level} level interviews. Continue building on the strengths you've demonstrated today.\n\nThank you for practicing with EchoHire! This experience should help you feel more confident in your real interviews. Wishing you all the best in your job search!")
  | _ =>
      (s, "Thank you for using EchoHire's AI Interview Coach! Good luck with your interviews!")

def createSession (sessionId : String) : InterviewSession :=
  { sessionId := sessionId,
    userPreferences := ⟨none, none, none⟩,
    questions := [],
    currentQuestionIndex := 0,
    phase := .greeting,
    answers := [],
    feedback := [] }

structure TurnResponse where
  sessionId : String
  phase : InterviewPhase
  aiResponse : String
  jobRole : Option String
  interviewType : Option String
  experienceLevel : Option String
  currentQuestion : Nat
  totalQuestions : Nat
deriving DecidableEq

/-- `process_user_input`: an unknown session id silently gets a fresh
`GREETING` session before the turn is handled. -/
def processUserInput (sessions : List (String × InterviewSession))
    (sessionId userInput : String) (qo : QGenOutcome) (fb : Option String) :
    List (String × InterviewSession) × TurnResponse :=
  let s :=
    match getDoc sessions sessionId with
    | some s => s
    | none => createSession sessionId
  let (s', reply) := handlePhaseLogic s userInput qo fb
  (setDoc sessions sessionId s',
   { sessionId := sessionId,
     phase := s'.phase,
     aiResponse := reply,
     jobRole := s'.userPreferences.jobRole,
     interviewType := s'.userPreferences.interviewType,
     experienceLevel := s'.userPreferences.experienceLevel,
     currentQuestion := if s'.questions.isEmpty then 0 else s'.currentQuestionIndex + 1,
     totalQuestions := s'.questions.length })

structure SessionSummary where
  sessionId : String
  preferences : UserPreferences
  questions : List InterviewQuestion
  answers : List String
  feedback : List String
  phase : InterviewPhase
  completed : Bool
deriving DecidableEq

/-- `get_session_summary`: `none` models the `Session not found` error object
returned for an unknown session id. -/
def getSessionSummary (sessions : List (String × InterviewSession))
    (sessionId : String) : Option SessionSummary :=
  match getDoc sessions sessionId with
  | none => none
  | some s =>
      some { sessionId := sessionId,
             preferences := s.userPreferences,
             questions := s.questions,
             answers := s.answers,
             feedback := s.feedback,
             phase := s.phase,
             completed := decide (s.phase = InterviewPhase.interviewComplete) }

/-! ### ai_services.py: GeminiAnalysisService -/

/-- The fields of the parsed JSON analysis object that the service and the
feedback pipeline read; `none` models an absent key. Narrative sub-dicts that
only pass through untouched are omitted. -/
structure RawAnalysis where
  overallScore : Option Int
  overallImpression : Option String
  keyInsights : Option (List String)
  confidenceLevel : Option Rat
  hiringRecommendation : Option String
  nextSteps : Option String
  recommendedAreas : Option (List String)
deriving DecidableEq

/-- The analysis dict returned by `analyze_interview_transcript` on each of
its paths. `hiringRecommendation` is `Option` because none of the service's
three result dicts sets that key; `nextSteps`/`recommendedAreas` are set on
some paths only. -/
structure AnalysisOut where
  overallScore : Int
  overallImpression : String
  keyInsights : List String
  confidenceScore : Rat
  recommendation : String
  hiringRecommendation : Option String
  nextSteps : Option String
  recommendedAreas : Option (List String)
deriving DecidableEq

/-- The outcome of the Gemini generation call inside
`analyze_interview_transcript`: parsed JSON, a non-JSON reply, or a raised
exception. -/
inductive GeminiOutcome
  | success (d : RawAnalysis)
  | parseFailure (text : String)
  | providerError
deriving DecidableEq

def formatRecommendation (recommendation : String) : String :=
  let r := strLower recommendation
  if r = "hire" then "Strong Hire - Recommended for immediate offer"
  else if r = "conditional_hire" then "Conditional Hire - Recommend additional assessment"
  else if r = "no_hire" then "No Hire - Does not meet current requirements"
  else "Review Required - Additional evaluation needed"

/-- `_fallback_analysis`: used when JSON parsing fails and when the service is
not configured. -/
def fallbackAnalysis (role interviewType : String) : AnalysisOut :=
  { overallScore := 78,
    overallImpression := s!"AI analysis completed for {role} {interviewType} interview",
    keyInsights := ["Interview transcript analyzed successfully",
                    "Performance metrics evaluated",
                    "Areas for improvement identified"],
    confidenceScore := 0.75,
    recommendation := "Further review recommended based on AI analysis",
    hiringRecommendation := none,
    nextSteps := none,
    recommendedAreas := none }

/-- `_emergency_fallback_analysis`: used when the provider call raises. -/
def emergencyFallbackAnalysis (role interviewType : String) : AnalysisOut :=
  { overallScore := 70,
    overallImpression := s!"Interview completed - manual review recommended for {role} {interviewType} interview",
    keyInsights := ["Technical interview conducted",
                    "Response quality evaluated",
                    "Communication assessed"],
    confidenceScore := 0.5,
    recommendation := "Manual review required - AI analysis unavailable",
    hiringRecommendation := none,
    nextSteps := some "Conduct manual review or rerun AI analysis when available",
    recommendedAreas := some ["Review candidate's technical depth manually",
                              "Assess communication nuances via transcript"] }

/-- The validated/normalized structure built from a successfully parsed
provider response. -/
def structuredAnalysis (d : RawAnalysis) : AnalysisOut :=
  { overallScore := max 1 (min 100 (d.overallScore.getD 75)),
    overallImpression := d.overallImpression.getD "Analysis completed",
    keyInsights := d.keyInsights.getD ["Technical competency evaluated",
                                       "Communication skills assessed",
                                       "Problem-solving approach reviewed"],
    confidenceScore := max 0 (min 1 (d.confidenceLevel.getD 0.8)),
    recommendation := formatRecommendation (d.hiringRecommendation.getD "conditional_hire"),
    hiringRecommendation := none,
    nextSteps := some (d.nextSteps.getD "Further evaluation recommended"),
    recommendedAreas := some (d.recommendedAreas.getD []) }

/-- `analyze_interview_transcript`. `isConfigured` is the service's
`is_configured and model` state; `o` the generation call's outcome. -/
def analyzeInterviewTranscript (isConfigured : Bool) (role interviewType : String)
    (o : GeminiOutcome) : AnalysisOut :=
  if isConfigured = false then fallbackAnalysis role interviewType
  else
    match o with
    | .success d => structuredAnalysis d
    | .parseFailure _ => fallbackAnalysis role interviewType
    | .providerError => emergencyFallbackAnalysis role interviewType

/-! ### main.py: data model -/

structure Interview where
  userId : String
  status : String
  jobTitle : String
  companyName : Option String
  interviewDate : String
  itype : String
  level : String
  questions : List InterviewQuestion
  vapiCallId : Option String
  vapiAssistantId : Option String
  aiSessionId : Option String
  aiGuided : Bool
  webCallUrl : Option String
  transcriptUrl : Option String
  audioRecordingUrl : Option String
  interviewDuration : Option Int
  overallScore : Option Int
  createdAt : String
  updatedAt : String
deriving DecidableEq

structure TranscriptDoc where
  interviewId : String
  userId : String
  transcript : String
  createdAt : String
  updatedAt : String
deriving DecidableEq

/-- A document of the `feedback` collection; narrative sub-dicts that only
pass through untouched are omitted. -/
structure FeedbackDoc where
  id : String
  aiAnalysisId : Option String
  interviewId : String
  userId : String
  source : Option String
  overallScore : Int
  overallImpression : String
  keyInsights : List String
  confidenceScore : Rat
  finalVerdict : String
  recommendation : String
  recommendedAreas : List String
  nextSteps : String
  transcriptPreview : Option String
  createdAt : String
  updatedAt : String
deriving DecidableEq

structure AiGuidedSession where
  sessionId : String
  interviewId : String
  userId : String
  workflowId : String
  vapiCallId : String
  status : String
  createdAt : String
  updatedAt : String
deriving DecidableEq

/-- The Firestore collections the modelled endpoints touch. -/
structure DB where
  interviews : List (String × Interview)
  transcripts : List (String × TranscriptDoc)
  feedback : List (String × FeedbackDoc)
  aiGuidedSessions : List (String × AiGuidedSession)
deriving DecidableEq

/-! ### main.py: feedback helpers -/

def aiFeedbackSources : List String := ["ai_auto", "ai_on_demand", "legacy_ai"]

def isAiFeedbackDoc (d : FeedbackDoc) : Bool :=
  match d.source with
  | some s => aiFeedbackSources.contains s
  | none => d.aiAnalysisId.isSome

def markLegacySource (d : FeedbackDoc) : FeedbackDoc :=
  match d.source with
  | none => { d with source := some "legacy_ai" }
  | some _ => d

/-- The first element of a stable descending sort by `createdAt`: the
element with the greatest `createdAt`, earliest in the list among ties. -/
def pickLatestByCreatedAt (l : List FeedbackDoc) : Option FeedbackDoc :=
  l.foldl (fun acc d =>
    match acc with
    | none => some d
    | some e => if strLt e.createdAt d.createdAt then some d else some e) none

/-- `_select_latest_ai_feedback`. -/
def selectLatestAiFeedback (docs : List FeedbackDoc) : Option FeedbackDoc :=
  pickLatestByCreatedAt ((docs.filter isAiFeedbackDoc).map markLegacySource)

/-- `_map_ai_recommendation`: `(final_verdict, narrative)` from the raw
`hiringRecommendation` token and the provider narrative. -/
def mapAiRecommendation (hiringRecommendation : Option String)
    (narrative : Option String) : String × String :=
  let raw := strLower (strTrim (hiringRecommendation.getD ""))
  let vf : String × String :=
    if raw = "hire" then
      ("recommended", "Strong Hire - Recommended for immediate offer")
    else if raw = "strong_hire" then
      ("recommended", "Strong Hire - Recommended for immediate offer")
    else if raw = "conditional_hire" then
      ("conditionallyRecommended", "Conditional Hire - Recommend additional assessment")
    else if raw = "no_hire" then
      ("notRecommended", "No Hire - Does not meet current requirements")
    else if raw = "reject" then
      ("notRecommended", "No Hire - Does not meet current requirements")
    else
      ("conditionallyRecommended", "Review Recommended - Additional evaluation suggested")
  let narrativeOut :=
    match narrative with
    | some s => if strTrim s = "" then vf.2 else s
    | none => vf.2
  (vf.1, narrativeOut)

structure AIFeedbackResponse where
  interviewId : String
  aiAnalysisId : Option String
  overallScore : Int
  overallImpression : String
  keyInsights : List String
  confidenceScore : Rat
  recommendation : String
  recommendedAreas : List String
  nextSteps : String
  source : Option String
deriving DecidableEq

/-- `_build_ai_feedback_payload`: the stored document and the response
payload. `aiAnalysisId`/`timestamp` stand for the generated UUID and
`_now_iso()`. -/
def buildAiFeedbackPayload (interviewId userId : String) (analysis : AnalysisOut)
    (transcriptText : String) (source : String) (aiAnalysisId timestamp : String) :
    FeedbackDoc × AIFeedbackResponse :=
  let mapped := mapAiRecommendation analysis.hiringRecommendation (some analysis.recommendation)
  let doc : FeedbackDoc :=
    { id := aiAnalysisId,
      aiAnalysisId := some aiAnalysisId,
      interviewId := interviewId,
      userId := userId,
      source := some source,
      overallScore := analysis.overallScore,
      overallImpression := analysis.overallImpression,
      keyInsights := analysis.keyInsights,
      confidenceScore := analysis.confidenceScore,
      finalVerdict := mapped.1,
      recommendation := mapped.2,
      recommendedAreas := analysis.recommendedAreas.getD [],
      nextSteps := analysis.nextSteps.getD "Further evaluation recommended",
      transcriptPreview := if transcriptText = "" then none else some (strTake transcriptText 5000),
      createdAt := timestamp,
      updatedAt := timestamp }
  let resp : AIFeedbackResponse :=
    { interviewId := interviewId,
      aiAnalysisId := some aiAnalysisId,
      overallScore := doc.overallScore,
      overallImpression := doc.overallImpression,
      keyInsights := doc.keyInsights,
      confidenceScore := doc.confidenceScore,
      recommendation := mapped.2,
      recommendedAreas := doc.recommendedAreas,
      nextSteps := doc.nextSteps,
      source := some source }
  (doc, resp)

/-- `_feedback_doc_to_response`. -/
def feedbackDocToResponse (d : FeedbackDoc) : AIFeedbackResponse :=
  { interviewId := d.interviewId,
    aiAnalysisId := some (d.aiAnalysisId.getD d.id),
    overallScore := d.overallScore,
    overallImpression := d.overallImpression,
    keyInsights := d.keyInsights,
    confidenceScore := d.confidenceScore,
    recommendation := d.recommendation,
    recommendedAreas := d.recommendedAreas,
    nextSteps := d.nextSteps,
    source := d.source }

/-- The number of AI-sourced feedback artifacts stored for an interview. -/
def aiFeedbackCount (db : DB) (interviewId : String) : Nat :=
  ((db.feedback.map Prod.snd).filter
    (fun d => d.interviewId == interviewId && isAiFeedbackDoc d)).length

/-! ### main.py: feedback endpoint -/

inductive FeedbackOutcome
  | notFound
  | accessDenied
  | notCompleted
  | pendingTranscript
  | ok (resp : AIFeedbackResponse)
deriving DecidableEq

/-- The `feedback` query of `get_ai_feedback` followed by
`_select_latest_ai_feedback`. -/
def existingAiFeedback (db : DB) (interviewId uid : String) : Option FeedbackDoc :=
  selectLatestAiFeedback ((db.feedback.map Prod.snd).filter
    (fun d => d.interviewId == interviewId && d.userId == uid))

/-- The tail of `get_ai_feedback` once a transcript text is fixed: analyze,
build the payload, persist it and update the interview summary score. -/
def finishFeedback (db : DB) (interviewId uid : String) (itv : Interview)
    (gcfg : Bool) (go : GeminiOutcome) (transcriptText : String)
    (freshId now : String) : DB × FeedbackOutcome :=
  let analysis := analyzeInterviewTranscript gcfg itv.jobTitle itv.itype go
  let built := buildAiFeedbackPayload interviewId uid analysis transcriptText
    "ai_on_demand" freshId now
  ({ db with
      feedback := setDoc db.feedback freshId built.1,
      interviews := updateDoc
        (fun i => { i with overallScore := some built.1.overallScore,
                           updatedAt := built.1.updatedAt })
        db.interviews interviewId },
   .ok built.2)

/-- `get_ai_feedback` (the Firestore-backed path). `gcfg`/`go` carry the
Gemini service state and call outcome, `vapiTranscript` the result of
`get_call_transcript` when it is reached. -/
def getAiFeedback (db : DB) (interviewId uid : String) (force : Bool)
    (gcfg : Bool) (go : GeminiOutcome) (vapiTranscript : Option String)
    (freshId now : String) : DB × FeedbackOutcome :=
  match getDoc db.interviews interviewId with
  | none => (db, .notFound)
  | some itv =>
    if itv.userId ≠ uid then (db, .accessDenied)
    else if itv.status ≠ "completed" then (db, .notCompleted)
    else
      match existingAiFeedback db interviewId uid with
      | some existing => (db, .ok (feedbackDocToResponse existing))
      | none =>
        let t0 :=
          match getDoc db.transcripts interviewId with
          | some td => td.transcript
          | none => ""
        let t1 :=
          if t0 = "" then
            match itv.vapiCallId with
            | some _ => vapiTranscript.getD ""
            | none => t0
          else t0
        if strTrim t1 = "" then
          if force = false then (db, .pendingTranscript)
          else
            finishFeedback db interviewId uid itv gcfg go
              "Transcript not available. Proceeding with limited analysis." freshId now
        else
          finishFeedback db interviewId uid itv gcfg go t1 freshId now

/-! ### main.py: call id, stop, manual completion, transcript endpoints -/

inductive SimpleOutcome
  | notFound
  | accessDenied
  | ok
deriving DecidableEq

/-- `update_vapi_call_id` (`POST /interviews/.../vapi-call-id`); the opaque
`vapiClientInitMeta` passthrough is omitted. -/
def updateVapiCallId (db : DB) (interviewId uid callId : String)
    (assistantId : Option String) (now : String) : DB × SimpleOutcome :=
  match getDoc db.interviews interviewId with
  | none => (db, .notFound)
  | some itv =>
    if itv.userId ≠ uid then (db, .accessDenied)
    else
      let itv' := { itv with
        vapiCallId := some callId,
        status := "inProgress",
        vapiAssistantId :=
          match assistantId with
          | some a => some a
          | none => itv.vapiAssistantId,
        updatedAt := now }
      ({ db with interviews := setDoc db.interviews interviewId itv' }, .ok)

/-- `stop_ai_interview`: the record is marked cancelled unconditionally; the
best-effort Vapi stop attempt has no store effect. -/
def stopAiInterview (db : DB) (interviewId uid now : String) : DB × SimpleOutcome :=
  match getDoc db.interviews interviewId with
  | none => (db, .notFound)
  | some itv =>
    if itv.userId ≠ uid then (db, .accessDenied)
    else
      let itv' := { itv with status := "cancelled", updatedAt := now }
      ({ db with interviews := setDoc db.interviews interviewId itv' }, .ok)

structure VapiStatusResp where
  status : Option String
  duration : Option Int
  transcriptUrl : Option String
  recordingUrl : Option String
deriving DecidableEq

/-- `complete_ai_interview`: `vapiStatus` is the `get_call_status` result
(`none` when it raised), `fetchedTranscript` the `get_call_transcript`
result; both are reached only when a call id is recorded. -/
def completeAiInterview (db : DB) (interviewId uid : String)
    (vapiStatus : Option VapiStatusResp) (fetchedTranscript : Option String)
    (now : String) : DB × SimpleOutcome :=
  match getDoc db.interviews interviewId with
  | none => (db, .notFound)
  | some itv =>
    if itv.userId ≠ uid then (db, .accessDenied)
    else
      let itv1 := { itv with status := "completed", updatedAt := now }
      match itv.vapiCallId, vapiStatus with
      | some _, some vs =>
        let itv2 := { itv1 with
          interviewDuration :=
            match vs.duration with
            | some d => some d
            | none => itv1.interviewDuration,
          transcriptUrl :=
            match vs.transcriptUrl with
            | some u => some u
            | none => itv1.transcriptUrl,
          audioRecordingUrl :=
            match vs.recordingUrl with
            | some u => some u
            | none => itv1.audioRecordingUrl }
        let db1 :=
          match fetchedTranscript with
          | some t =>
            if strTrim t ≠ "" then
              let tdoc : TranscriptDoc :=
                { interviewId := interviewId, userId := uid, transcript := t,
                  createdAt := now, updatedAt := now }
              { db with transcripts := setDoc db.transcripts interviewId tdoc }
            else db
          | none => db
        ({ db1 with interviews := setDoc db1.interviews interviewId itv2 }, .ok)
      | _, _ =>
        ({ db with interviews := setDoc db.interviews interviewId itv1 }, .ok)

inductive TranscriptOutcome
  | notFound
  | accessDenied
  | stored (text : String)
  | fetched (text : String)
  | notAvailable
deriving DecidableEq

/-- `get_interview_transcript`: a stored transcript is returned as-is; only
when none is stored is the provider consulted and the result persisted. -/
def getInterviewTranscript (db : DB) (interviewId uid : String)
    (fetchedTranscript : Option String) (now : String) : DB × TranscriptOutcome :=
  match getDoc db.interviews interviewId with
  | none => (db, .notFound)
  | some itv =>
    if itv.userId ≠ uid then (db, .accessDenied)
    else
      match getDoc db.transcripts interviewId with
      | some td => (db, .stored td.transcript)
      | none =>
        match itv.vapiCallId, fetchedTranscript with
        | some _, some t =>
          if strTrim t ≠ "" then
            let tdoc : TranscriptDoc :=
              { interviewId := interviewId, userId := uid, transcript := t,
                createdAt := now, updatedAt := now }
            ({ db with transcripts := setDoc db.transcripts interviewId tdoc }, .fetched t)
          else (db, .notAvailable)
        | _, _ => (db, .notAvailable)

/-! ### main.py: status poll and webhook reconciliation -/

/-- The status-persistence step of `get_ai_interview_status`, reached when a
call id is recorded and the Vapi status fetch succeeded. -/
def pollStatusUpdate (itv : Interview) (v : VapiStatusResp) (now : String) : Interview :=
  let statusVal := v.status.getD itv.status
  let durationVal :=
    match v.duration with
    | some d => some d
    | none => itv.interviewDuration
  let transcriptUrlVal :=
    match v.transcriptUrl with
    | some u => some u
    | none => itv.transcriptUrl
  let recordingUrlVal :=
    match v.recordingUrl with
    | some u => some u
    | none => itv.audioRecordingUrl
  let normalized := strLower statusVal
  let isCompleted := normalized = "completed" || normalized = "ended" ||
    strContains normalized "completed" || strContains normalized "ended"
  let writeStatus := isCompleted && itv.status ≠ "completed"
  if durationVal.isSome || transcriptUrlVal.isSome || recordingUrlVal.isSome || writeStatus then
    { itv with
      interviewDuration := durationVal,
      transcriptUrl := transcriptUrlVal,
      audioRecordingUrl := recordingUrlVal,
      status := if writeStatus then "completed" else itv.status,
      updatedAt := now }
  else itv

/-- A webhook event after field extraction: `status` is the lower-cased
merge of `status`/`state` (`""` when absent). -/
structure VapiEvent where
  callId : Option String
  status : String
  duration : Option Int
  transcriptUrl : Option String
  recordingUrl : Option String
  metaInterviewId : Option String
deriving DecidableEq

/-- The webhook's inline status normalization. -/
def webhookNormalize (status : String) : String :=
  if strContains status "completed" || strContains status "ended" || status = "completed" then
    "completed"
  else if strContains status "failed" || status = "failed" then "failed"
  else "inProgress"

/-- The webhook's `update_payload` applied to the located interview. -/
def applyWebhookUpdate (itv : Interview) (e : VapiEvent) (now : String) : Interview :=
  { itv with
    status := if e.status ≠ "" then webhookNormalize e.status else itv.status,
    interviewDuration :=
      match e.duration with
      | some d => some d
      | none => itv.interviewDuration,
    transcriptUrl :=
      match e.transcriptUrl with
      | some u => some u
      | none => itv.transcriptUrl,
    audioRecordingUrl :=
      match e.recordingUrl with
      | some u => some u
      | none => itv.audioRecordingUrl,
    vapiCallId :=
      match e.callId, itv.vapiCallId with
      | some c, none => some c
      | _, _ => itv.vapiCallId,
    updatedAt := now }

def findByCallId (db : DB) : Option String → Option (String × Interview)
  | none => none
  | some cid => db.interviews.find? (fun p => p.2.vapiCallId == some cid)

/-- Webhook interview lookup: `metadata.interviewId` preferred, then a
search by stored call id. -/
def webhookFindInterview (db : DB) (e : VapiEvent) : Option (String × Interview) :=
  match e.metaInterviewId with
  | some iid =>
    match getDoc db.interviews iid with
    | some itv => some (iid, itv)
    | none => findByCallId db e.callId
  | none => findByCallId db e.callId

/-- Per-delivery environment of the webhook: the auto-generation toggle, the
Gemini state/outcome, the transcript-URL download and transcript-API results,
and the generated UUID/timestamp. -/
structure WebhookCfg where
  autoGenerate : Bool
  gcfg : Bool
  go : GeminiOutcome
  urlFetch : String → Option String
  vapiTranscript : String → Option String
  freshId : String
  now : String

/-- `vapi_webhook` (`POST /webhooks/vapi`): persist the normalized update,
then optionally auto-generate AI feedback on completion, guarded by the
existing-artifact check. -/
def vapiWebhook (db : DB) (e : VapiEvent) (cfg : WebhookCfg) : DB :=
  match webhookFindInterview db e with
  | none => db
  | some (iid, itv) =>
    let itv' := applyWebhookUpdate itv e cfg.now
    let db1 := { db with interviews := setDoc db.interviews iid itv' }
    if cfg.autoGenerate && e.status ≠ "" && webhookNormalize e.status == "completed" then
      match selectLatestAiFeedback
          ((db1.feedback.map Prod.snd).filter (fun d => d.interviewId == iid)) with
      | some _ => db1
      | none =>
        let t0 :=
          match getDoc db1.transcripts iid with
          | some td => td.transcript
          | none => ""
        let t1 :=
          if t0 = "" then
            match (match e.transcriptUrl with
                   | some u => some u
                   | none => itv.transcriptUrl) with
            | some u => (cfg.urlFetch u).getD ""
            | none => t0
          else t0
        let t2 :=
          if t1 = "" then
            match e.callId with
            | some cid => (cfg.vapiTranscript cid).getD ""
            | none => t1
          else t1
        if t2 ≠ "" then
          let analysis := analyzeInterviewTranscript cfg.gcfg itv.jobTitle itv.itype cfg.go
          let built := buildAiFeedbackPayload iid itv.userId analysis t2 "ai_auto"
            cfg.freshId cfg.now
          { db1 with
            feedback := setDoc db1.feedback cfg.freshId built.1,
            interviews := updateDoc
              (fun i => { i with overallScore := some built.1.overallScore,
                                 updatedAt := built.1.updatedAt })
              db1.interviews iid }
        else db1
    else db1

/-! ### main.py: session creation endpoints -/

structure CallStartResp where
  callId : Option String
  webCallUrl : Option String
deriving DecidableEq

inductive FinalizeOutcome
  | notFound
  | ok (interview : Interview) (startOk : Bool)
deriving DecidableEq

/-- `workflow_finalize` (`POST /workflow/.../finalize`): the record is
persisted before the call is attempted; a failed `autoStart` call reverts the
status to `scheduled`. `callResult` is `none` when `start_interview_call`
raised. -/
def workflowFinalize (db : DB) (uid : String) (summary : Option SessionSummary)
    (companyName : Option String) (interviewDate : Option String) (autoStart : Bool)
    (callResult : Option CallStartResp)
    (interviewId aiSessionId now now2 : String) : DB × FinalizeOutcome :=
  match summary with
  | none => (db, .notFound)
  | some s =>
    let doc : Interview :=
      { userId := uid,
        status := if autoStart then "inProgress" else "scheduled",
        jobTitle :=
          match s.preferences.jobRole with
          | some r => if r ≠ "" then r else "Interview"
          | none => "Interview",
        companyName := companyName,
        interviewDate := interviewDate.getD now,
        itype := strLower (s.preferences.interviewType.getD ""),
        level := strLower (s.preferences.experienceLevel.getD ""),
        questions := s.questions,
        vapiCallId := none, vapiAssistantId := none, aiSessionId := none,
        aiGuided := false, webCallUrl := none, transcriptUrl := none,
        audioRecordingUrl := none, interviewDuration := none, overallScore := none,
        createdAt := now, updatedAt := now }
    let db1 := { db with interviews := setDoc db.interviews interviewId doc }
    if autoStart then
      match callResult with
      | some r =>
        let doc' := { doc with
          aiSessionId := some aiSessionId,
          vapiCallId := r.callId,
          webCallUrl := r.webCallUrl,
          status := "inProgress",
          updatedAt := now2 }
        ({ db1 with interviews := setDoc db1.interviews interviewId doc' }, .ok doc' true)
      | none =>
        let doc' := { doc with status := "scheduled", updatedAt := now2 }
        ({ db1 with interviews := setDoc db1.interviews interviewId doc' }, .ok doc' false)
    else (db1, .ok doc false)

def universalWorkflowId : String := "7894c32f-8b29-4e71-90f3-a19047832a21"

structure AIGuidedReq where
  jobTitle : Option String
  companyName : Option String
  interviewType : Option String
  experienceLevel : Option String
  candidateName : Option String
deriving DecidableEq

structure WorkflowCallResp where
  callId : String
  status : String
deriving DecidableEq

structure AIGuidedResp where
  sessionId : String
  callId : String
  status : String
  interviewId : Option String
deriving DecidableEq

/-- `create_ai_guided_interview` (`POST /interviews/ai-guided`): the
preliminary record is persisted only after `start_workflow_call` succeeds;
when it raises (`callResult = none`) a mock response is returned and nothing
is stored. -/
def createAiGuidedInterview (db : DB) (uid : String) (req : AIGuidedReq)
    (callResult : Option WorkflowCallResp) (sessionId interviewId now : String) :
    DB × AIGuidedResp :=
  match callResult with
  | none =>
    (db, { sessionId := sessionId,
           callId := "ai_guided_mock_" ++ strTake sessionId 8,
           status := "mock_ai_guided",
           interviewId := none })
  | some r =>
    let prelim : Interview :=
      { userId := uid,
        status := "ai_guided_setup",
        jobTitle :=
          match req.jobTitle with
          | some t => if t ≠ "" then t else "TBD - AI Guided"
          | none => "TBD - AI Guided",
        companyName := some
          (match req.companyName with
           | some c => if c ≠ "" then c else "TBD - AI Guided"
           | none => "TBD - AI Guided"),
        interviewDate := now,
        itype := "", level := "", questions := [],
        vapiCallId := some r.callId, vapiAssistantId := none, aiSessionId := none,
        aiGuided := true, webCallUrl := none, transcriptUrl := none,
        audioRecordingUrl := none, interviewDuration := none, overallScore := none,
        createdAt := now, updatedAt := now }
    let sess : AiGuidedSession :=
      { sessionId := sessionId, interviewId := interviewId, userId := uid,
        workflowId := universalWorkflowId, vapiCallId := r.callId,
        status := r.status, createdAt := now, updatedAt := now }
    ({ db with
        interviews := setDoc db.interviews interviewId prelim,
        aiGuidedSessions := setDoc db.aiGuidedSessions sessionId sess },
     { sessionId := sessionId, callId := r.callId, status := r.status,
       interviewId := some interviewId })

/-! ### Store lemmas -/

theorem getDoc_setDoc_self {β : Type} (l : List (String × β)) (k : String) (v : β) :
    getDoc (setDoc l k v) k = some v := by
  induction l with
  | nil => simp [setDoc, getDoc]
  | cons p rest ih =>
    by_cases h : p.1 = k
    · simp [setDoc, h, getDoc]
    · simp [setDoc, h, getDoc, ih]

theorem getDoc_updateDoc_self {β : Type} (f : β → β) (l : List (String × β)) (k : String) :
    getDoc (updateDoc f l k) k = (getDoc l k).map f := by
  induction l with
  | nil => simp [updateDoc, getDoc]
  | cons p rest ih =>
    by_cases h : p.1 = k
    · simp [updateDoc, h, getDoc]
    · simp [updateDoc, h, getDoc, ih]

theorem snd_setDoc_of_fresh {β : Type} (l : List (String × β)) (k : String) (v : β)
    (h : getDoc l k = none) : (setDoc l k v).map Prod.snd = l.map Prod.snd ++ [v] := by
  induction l with
  | nil => simp [setDoc]
  | cons p rest ih =>
    by_cases hk : p.1 = k
    · simp [getDoc, hk] at h
    · simp [getDoc, hk] at h
      simp [setDoc, hk, ih h]

theorem strTrim_ne_nil {s : String} (h : strTrim s ≠ "") : s ≠ "" := by
  intro he
  subst he
  exact h rfl

/-! ### C8: the recommendation mapping -/

/-- C8: `_map_ai_recommendation` is total and deterministic: `hire` and
`strong_hire` map to `recommended`, `conditional_hire` to
`conditionallyRecommended`, `no_hire` and `reject` to `notRecommended`, any
other or missing token to `conditionallyRecommended`; the result is always one
of the three canonical values, the narrative text is always non-empty, and a
non-blank provider narrative is kept verbatim. -/
theorem C8_recommendation_mapping_total :
    (∀ n, (mapAiRecommendation (some "hire") n).1 = "recommended") ∧
    (∀ n, (mapAiRecommendation (some "strong_hire") n).1 = "recommended") ∧
    (∀ n, (mapAiRecommendation (some "conditional_hire") n).1 = "conditionallyRecommended") ∧
    (∀ n, (mapAiRecommendation (some "no_hire") n).1 = "notRecommended") ∧
    (∀ n, (mapAiRecommendation (some "reject") n).1 = "notRecommended") ∧
    (∀ n, (mapAiRecommendation none n).1 = "conditionallyRecommended") ∧
    (∀ tok n, strLower (strTrim (tok.getD "")) ∉
        (["hire", "strong_hire", "conditional_hire", "no_hire", "reject"] : List String) →
        (mapAiRecommendation tok n).1 = "conditionallyRecommended") ∧
    (∀ tok n, (mapAiRecommendation tok n).1 = "recommended" ∨
        (mapAiRecommendation tok n).1 = "conditionallyRecommended" ∨
        (mapAiRecommendation tok n).1 = "notRecommended") ∧
    (∀ tok n, (mapAiRecommendation tok n).2 ≠ "") ∧
    (∀ tok s, strTrim s ≠ "" → (mapAiRecommendation tok (some s)).2 = s) := by
  refine ⟨fun n => rfl, fun n => rfl, fun n => rfl, fun n => rfl, fun n => rfl, fun n => rfl,
    ?_, ?_, ?_, ?_⟩
  · intro tok n h
    simp only [List.mem_cons, List.not_mem_nil, or_false, not_or] at h
    obtain ⟨h1, h2, h3, h4, h5⟩ := h
    simp only [mapAiRecommendation, if_neg h1, if_neg h2, if_neg h3, if_neg h4, if_neg h5]
  · intro tok n
    simp only [mapAiRecommendation]
    split_ifs <;> simp
  · intro tok n
    simp only [mapAiRecommendation]
    rcases n with _ | s
    · split_ifs <;> simp
    · split_ifs
      all_goals {
        by_cases ht : strTrim s = ""
        · simp [ht]
        · simp only [if_neg ht]
          exact strTrim_ne_nil ht
      }
  · intro tok s hs
    simp only [mapAiRecommendation, if_neg hs]

/-! ### C7: score and confidence clamping -/

/-- C7: for every Gemini service state and provider outcome (structured
parse, parse failure, provider error, or service unconfigured), the overall
score stored in the feedback artifact built by `_build_ai_feedback_payload`
lies in `[1, 100]` and the stored confidence lies in `[0, 1]`. -/
theorem C7_score_confidence_clamped (gcfg : Bool) (o : GeminiOutcome)
    (iid uid tText src fid ts role itype : String) :
    1 ≤ ((buildAiFeedbackPayload iid uid (analyzeInterviewTranscript gcfg role itype o)
          tText src fid ts).1).overallScore ∧
    ((buildAiFeedbackPayload iid uid (analyzeInterviewTranscript gcfg role itype o)
          tText src fid ts).1).overallScore ≤ 100 ∧
    0 ≤ ((buildAiFeedbackPayload iid uid (analyzeInterviewTranscript gcfg role itype o)
          tText src fid ts).1).confidenceScore ∧
    ((buildAiFeedbackPayload iid uid (analyzeInterviewTranscript gcfg role itype o)
          tText src fid ts).1).confidenceScore ≤ 1 := by
  have hb : ((buildAiFeedbackPayload iid uid (analyzeInterviewTranscript gcfg role itype o)
      tText src fid ts).1).overallScore =
      (analyzeInterviewTranscript gcfg role itype o).overallScore := rfl
  have hc : ((buildAiFeedbackPayload iid uid (analyzeInterviewTranscript gcfg role itype o)
      tText src fid ts).1).confidenceScore =
      (analyzeInterviewTranscript gcfg role itype o).confidenceScore := rfl
  rw [hb, hc]
  cases gcfg with
  | false =>
    simp [analyzeInterviewTranscript, fallbackAnalysis]
    norm_num
  | true =>
    cases o with
    | success d =>
      simp only [analyzeInterviewTranscript, structuredAnalysis]
      refine ⟨le_max_left _ _, max_le (by norm_num) (min_le_left _ _),
        le_max_left _ _, max_le (by norm_num) (min_le_left _ _)⟩
    | parseFailure t =>
      simp [analyzeInterviewTranscript, fallbackAnalysis]
      norm_num
    | providerError =>
      simp [analyzeInterviewTranscript, emergencyFallbackAnalysis]
      norm_num

/-! ### C10: unknown dialogue session ids -/

/-- C10: `process_user_input` on a session id absent from the session map
never signals NotFound: it creates a fresh `GREETING` session, returns the
greeting reply, and stores the session advanced to role collection, while
`get_session_summary` on the same map and id reports no session. -/
theorem C10_unknown_session_silently_created
    (sessions : List (String × InterviewSession)) (sid input : String)
    (qo : QGenOutcome) (fb : Option String)
    (h : getDoc sessions sid = none) :
    (processUserInput sessions sid input qo fb).2.phase = InterviewPhase.collectingJobRole ∧
    (processUserInput sessions sid input qo fb).2.aiResponse = greetingReplyText ∧
    (getDoc (processUserInput sessions sid input qo fb).1 sid).map InterviewSession.phase =
      some InterviewPhase.collectingJobRole ∧
    getSessionSummary sessions sid = none := by
  refine ⟨?_, ?_, ?_, ?_⟩
  · simp [processUserInput, h, handlePhaseLogic, createSession]
  · simp [processUserInput, h, handlePhaseLogic, createSession]
  · simp [processUserInput, h, handlePhaseLogic, createSession, getDoc_setDoc_self]
  · simp [getSessionSummary, h]

/-- Witness for C10 at the empty session map. -/
theorem C10_unknown_session_silently_created_witness :
    getDoc ([] : List (String × InterviewSession)) "s1" = none ∧
    (processUserInput [] "s1" "" QGenOutcome.noModel none).2.phase =
      InterviewPhase.collectingJobRole := by
  exact ⟨rfl, (C10_unknown_session_silently_created [] "s1" "" QGenOutcome.noModel none rfl).1⟩

/-! ### Concrete fixtures for counterexamples and witnesses -/

def baseInterview : Interview :=
  { userId := "user-1", status := "completed", jobTitle := "Software Engineer",
    companyName := none, interviewDate := "2025-01-01T00:00:00Z",
    itype := "technical", level := "mid", questions := [],
    vapiCallId := some "call-a", vapiAssistantId := none, aiSessionId := some "sess-a",
    aiGuided := false, webCallUrl := none, transcriptUrl := none,
    audioRecordingUrl := none, interviewDuration := none, overallScore := none,
    createdAt := "2025-01-01T00:00:00Z", updatedAt := "2025-01-01T00:00:00Z" }

def emptyDb : DB :=
  { interviews := [], transcripts := [], feedback := [], aiGuidedSessions := [] }

def cxDb1 : DB :=
  { emptyDb with interviews := [("iv1", baseInterview)] }

def cxWebhookEventInProgress : VapiEvent :=
  { callId := some "call-a", status := "ringing", duration := none,
    transcriptUrl := none, recordingUrl := none, metaInterviewId := some "iv1" }

def cxWebhookCfg : WebhookCfg :=
  { autoGenerate := false, gcfg := false, go := .providerError,
    urlFetch := fun _ => none, vapiTranscript := fun _ => none,
    freshId := "fid-1", now := "2025-01-02T00:00:00Z" }

/-! ### C2: status monotonicity -/

/-- C2 counterexample: on an interview whose stored status is `completed`, a
webhook event carrying the non-terminal status `ringing` reverts the stored
status to `inProgress`, so a terminal status is not preserved under all
reconciliation signals. -/
theorem C2_status_monotonic_cx :
    baseInterview.status = "completed" ∧
    (getDoc (vapiWebhook cxDb1 cxWebhookEventInProgress cxWebhookCfg).interviews "iv1").map
      Interview.status = some "inProgress" :=
  ⟨rfl, rfl⟩

/-- C2 (amended): only the client status-poll reconciliation is monotone — it
never changes a stored `completed` status and only ever writes the terminal
value `completed` — while webhook processing overwrites the stored status with
the normalized incoming value unconditionally, and a stop request records
`cancelled` regardless of the prior status, even after completion. -/
theorem C2_status_monotonic_amended :
    (∀ (itv : Interview) (v : VapiStatusResp) (now : String),
      itv.status = "completed" → (pollStatusUpdate itv v now).status = "completed") ∧
    (∀ (itv : Interview) (v : VapiStatusResp) (now : String),
      (pollStatusUpdate itv v now).status = "completed" ∨
      (pollStatusUpdate itv v now).status = itv.status) ∧
    (∀ (itv : Interview) (e : VapiEvent) (now : String), e.status ≠ "" →
      (applyWebhookUpdate itv e now).status = webhookNormalize e.status) ∧
    (∀ (db : DB) (iid uid now : String) (itv : Interview),
      getDoc db.interviews iid = some itv → itv.userId = uid →
      (getDoc (stopAiInterview db iid uid now).1.interviews iid).map Interview.status =
        some "cancelled") := by
  refine ⟨?_, ?_, ?_, ?_⟩
  · intro itv v now h
    simp only [pollStatusUpdate, h]
    split_ifs <;> simp_all
  · intro itv v now
    simp only [pollStatusUpdate]
    split_ifs <;> simp_all
  · intro itv e now h
    simp [applyWebhookUpdate, h]
  · intro db iid uid now itv h1 h2
    simp [stopAiInterview, h1, h2, getDoc_setDoc_self]

/-- Witness for the amended C2 at a concrete completed interview. -/
theorem C2_status_monotonic_amended_witness :
    baseInterview.status = "completed" ∧
    (pollStatusUpdate baseInterview ⟨some "in-progress", none, none, none⟩ "t2").status =
      "completed" :=
  ⟨rfl, C2_status_monotonic_amended.1 baseInterview ⟨some "in-progress", none, none, none⟩
    "t2" rfl⟩

/-! ### C3: write-once external call id -/

/-- C3 counterexample: the `vapi-call-id` endpoint overwrites an already
recorded external call id with a different value, so the id is not
write-once across all operations. -/
theorem C3_callid_write_once_cx :
    baseInterview.vapiCallId = some "call-a" ∧
    (getDoc (updateVapiCallId cxDb1 "iv1" "user-1" "call-b" none "t2").1.interviews "iv1").map
      Interview.vapiCallId = some (some "call-b") ∧
    (getDoc (updateVapiCallId cxDb1 "iv1" "user-1" "call-b" none "t2").1.interviews "iv1").map
      Interview.vapiCallId ≠ some (some "call-a") :=
  ⟨rfl, rfl, by decide⟩

/-- C3 (amended): webhook event processing is write-once for the external
call id — an already recorded id is never overwritten — while the
`vapi-call-id` endpoint unconditionally records the supplied id, even over a
different existing one, and flips the status to `inProgress` as a side
effect. -/
theorem C3_callid_amended :
    (∀ (itv : Interview) (e : VapiEvent) (now c : String),
      itv.vapiCallId = some c → (applyWebhookUpdate itv e now).vapiCallId = some c) ∧
    (∀ (db : DB) (iid uid callId : String) (aid : Option String) (now : String)
       (itv : Interview),
      getDoc db.interviews iid = some itv → itv.userId = uid →
      (getDoc (updateVapiCallId db iid uid callId aid now).1.interviews iid).map
        Interview.vapiCallId = some (some callId) ∧
      (getDoc (updateVapiCallId db iid uid callId aid now).1.interviews iid).map
        Interview.status = some "inProgress") := by
  refine ⟨?_, ?_⟩
  · intro itv e now c h
    cases he : e.callId <;> simp [applyWebhookUpdate, h, he]
  · intro db iid uid callId aid now itv h1 h2
    constructor <;> simp [updateVapiCallId, h1, h2, getDoc_setDoc_self]

/-- Witness for the amended C3 at a concrete interview. -/
theorem C3_callid_amended_witness :
    getDoc cxDb1.interviews "iv1" = some baseInterview ∧
    baseInterview.userId = "user-1" ∧
    (getDoc (updateVapiCallId cxDb1 "iv1" "user-1" "call-b" none "t2").1.interviews "iv1").map
      Interview.vapiCallId = some (some "call-b") :=
  ⟨rfl, rfl, (C3_callid_amended.2 cxDb1 "iv1" "user-1" "call-b" none "t2" baseInterview
    rfl rfl).1⟩

/-! ### C4: transcript persistence -/

def cxStoredTranscript : TranscriptDoc :=
  { interviewId := "iv1", userId := "user-1", transcript := "T1",
    createdAt := "2025-01-01T00:00:00Z", updatedAt := "2025-01-01T00:00:00Z" }

def cxDbWithTranscript : DB :=
  { cxDb1 with transcripts := [("iv1", cxStoredTranscript)] }

/-- C4 counterexample: with a non-empty transcript `T1` already stored,
manual completion whose provider fetch returns `T2` overwrites the stored
transcript, so later fetches are not create-if-absent. -/
theorem C4_transcript_create_if_absent_cx :
    (getDoc cxDbWithTranscript.transcripts "iv1").map TranscriptDoc.transcript = some "T1" ∧
    (getDoc (completeAiInterview cxDbWithTranscript "iv1" "user-1"
        (some ⟨none, none, none, none⟩) (some "T2") "t2").1.transcripts "iv1").map
      TranscriptDoc.transcript = some "T2" ∧
    (getDoc (completeAiInterview cxDbWithTranscript "iv1" "user-1"
        (some ⟨none, none, none, none⟩) (some "T2") "t2").1.transcripts "iv1").map
      TranscriptDoc.transcript ≠ some "T1" :=
  ⟨rfl, rfl, by decide⟩

/-- C4 (amended): the transcript endpoint is create-if-absent — when a
transcript document is stored it is returned unchanged and the store is
untouched — but manual completion unconditionally overwrites the stored
transcript with any non-blank newly fetched text. -/
theorem C4_transcript_amended :
    (∀ (db : DB) (iid uid : String) (ft : Option String) (now : String)
       (itv : Interview) (td : TranscriptDoc),
      getDoc db.interviews iid = some itv → itv.userId = uid →
      getDoc db.transcripts iid = some td →
      getInterviewTranscript db iid uid ft now = (db, .stored td.transcript)) ∧
    (∀ (db : DB) (iid uid t now : String) (vs : VapiStatusResp) (itv : Interview),
      getDoc db.interviews iid = some itv → itv.userId = uid →
      itv.vapiCallId.isSome → strTrim t ≠ "" →
      (getDoc (completeAiInterview db iid uid (some vs) (some t) now).1.transcripts iid).map
        TranscriptDoc.transcript = some t) := by
  refine ⟨?_, ?_⟩
  · intro db iid uid ft now itv td h1 h2 h3
    simp [getInterviewTranscript, h1, h2, h3]
  · intro db iid uid t now vs itv h1 h2 h3 h4
    obtain ⟨c, hc⟩ := Option.isSome_iff_exists.mp h3
    simp [completeAiInterview, h1, h2, hc, h4, getDoc_setDoc_self]

/-- Witness for the amended C4 at the concrete stored-transcript state. -/
theorem C4_transcript_amended_witness :
    getDoc cxDbWithTranscript.transcripts "iv1" = some cxStoredTranscript ∧
    getInterviewTranscript cxDbWithTranscript "iv1" "user-1" (some "T2") "t2" =
      (cxDbWithTranscript, .stored "T1") :=
  ⟨rfl, C4_transcript_amended.1 cxDbWithTranscript "iv1" "user-1" (some "T2") "t2"
    baseInterview cxStoredTranscript rfl rfl rfl⟩

/-! ### C5: durability under call-provider failure -/

def cxAIGuidedReq : AIGuidedReq :=
  { jobTitle := some "Software Engineer", companyName := none,
    interviewType := some "technical", experienceLevel := some "mid",
    candidateName := none }

/-- C5 counterexample: when the workflow call to the provider raises during
AI-guided interview creation, no `InterviewRecord` is persisted — the store
is unchanged and the response carries no interview id — so call-provider
failure does prevent having a durable record on this endpoint. -/
theorem C5_durable_record_cx :
    (createAiGuidedInterview emptyDb "user-1" cxAIGuidedReq none "sess-1" "iv-new"
      "t0").1.interviews = [] ∧
    (createAiGuidedInterview emptyDb "user-1" cxAIGuidedReq none "sess-1" "iv-new"
      "t0").2.interviewId = none :=
  ⟨rfl, rfl⟩

/-- C5 (amended): durability under call-provider failure holds for the
workflow finalize endpoint — the record is persisted before the call and its
status reverts to `scheduled` when the call raises — but the AI-guided
creation endpoint persists nothing on provider failure and returns a mock
response with no interview id. -/
theorem C5_durable_record_amended :
    (∀ (db : DB) (uid : String) (s : SessionSummary) (cn idate : Option String)
       (iid sid now now2 : String),
      (getDoc (workflowFinalize db uid (some s) cn idate true none iid sid
        now now2).1.interviews iid).map Interview.status = some "scheduled") ∧
    (∀ (db : DB) (uid : String) (req : AIGuidedReq) (sid iid now : String),
      (createAiGuidedInterview db uid req none sid iid now).1 = db ∧
      (createAiGuidedInterview db uid req none sid iid now).2.interviewId = none) := by
  refine ⟨?_, ?_⟩
  · intro db uid s cn idate iid sid now now2
    simp [workflowFinalize, getDoc_setDoc_self]
  · intro db uid req sid iid now
    exact ⟨rfl, rfl⟩

/-! ### C6: feedback precondition and the force flag -/

def cxInProgressInterview : Interview := { baseInterview with status := "inProgress" }

def cxDbInProgress : DB :=
  { emptyDb with interviews := [("iv1", cxInProgressInterview)] }

/-- C6 counterexample: with the interview status `inProgress` and the force
flag set, `get_ai_feedback` still fails with the precondition error instead
of proceeding, so the precondition is not bypassed by `force`. -/
theorem C6_force_precondition_cx :
    cxInProgressInterview.status = "inProgress" ∧
    (getAiFeedback cxDbInProgress "iv1" "user-1" true false GeminiOutcome.providerError
      none "f1" "t2").2 = FeedbackOutcome.notCompleted :=
  ⟨rfl, rfl⟩

/-- C6 (amended): `get_ai_feedback` fails with the precondition error
(distinct from NotFound and AccessDenied) iff the interview exists, is owned
by the caller and its status is not `completed` — irrespective of `force`;
`force` only governs the missing-transcript branch: with no transcript
available, `force` unset yields the non-error `pending_transcript` result and
`force` set proceeds to synthesis with a placeholder transcript. -/
theorem C6_precondition_amended :
    (∀ (db : DB) (iid uid : String) (force gcfg : Bool) (go : GeminiOutcome)
       (vt : Option String) (fid now : String),
      (getAiFeedback db iid uid force gcfg go vt fid now).2 = FeedbackOutcome.notCompleted ↔
        ∃ itv, getDoc db.interviews iid = some itv ∧ itv.userId = uid ∧
          itv.status ≠ "completed") ∧
    (∀ (db : DB) (iid uid : String) (gcfg : Bool) (go : GeminiOutcome)
       (vt : Option String) (fid now : String) (itv : Interview),
      getDoc db.interviews iid = some itv → itv.userId = uid →
      itv.status = "completed" → existingAiFeedback db iid uid = none →
      getDoc db.transcripts iid = none → itv.vapiCallId = none →
      (getAiFeedback db iid uid false gcfg go vt fid now).2 =
        FeedbackOutcome.pendingTranscript ∧
      ∃ resp, (getAiFeedback db iid uid true gcfg go vt fid now).2 =
        FeedbackOutcome.ok resp) := by
  refine ⟨?_, ?_⟩
  · intro db iid uid force gcfg go vt fid now
    constructor
    · intro h
      unfold getAiFeedback at h
      cases hg : getDoc db.interviews iid with
      | none => rw [hg] at h; simp at h
      | some itv =>
        rw [hg] at h
        dsimp only at h
        by_cases hu : itv.userId ≠ uid
        · rw [if_pos hu] at h; simp at h
        · rw [if_neg hu] at h
          by_cases hs : itv.status ≠ "completed"
          · exact ⟨itv, rfl, not_not.mp hu, hs⟩
          · rw [if_neg hs] at h
            cases he : existingAiFeedback db iid uid with
            | some ex => rw [he] at h; simp at h
            | none =>
              rw [he] at h
              dsimp only at h
              split_ifs at h <;> simp [finishFeedback] at h
    · rintro ⟨itv, hg, hu, hs⟩
      simp [getAiFeedback, hg, hu, hs]
  · intro db iid uid gcfg go vt fid now itv h1 h2 h3 h4 h5 h6
    constructor
    · simp [getAiFeedback, h1, h2, h3, h4, h5, h6, strTrim]
    · refine ⟨(buildAiFeedbackPayload iid uid
        (analyzeInterviewTranscript gcfg itv.jobTitle itv.itype go)
        "Transcript not available. Proceeding with limited analysis."
        "ai_on_demand" fid now).2, ?_⟩
      simp [getAiFeedback, h1, h2, h3, h4, h5, h6, strTrim, finishFeedback]

/-- Witness for the amended C6 at a concrete completed interview with no
transcript. -/
theorem C6_precondition_amended_witness :
    (getAiFeedback
      ({ emptyDb with interviews :=
          [("iv1", { baseInterview with vapiCallId := none })] })
      "iv1" "user-1" false false GeminiOutcome.providerError none "f1" "t2").2 =
      FeedbackOutcome.pendingTranscript :=
  (C6_precondition_amended.2
    ({ emptyDb with interviews := [("iv1", { baseInterview with vapiCallId := none })] })
    "iv1" "user-1" false GeminiOutcome.providerError none "f1" "t2"
    { baseInterview with vapiCallId := none } rfl rfl rfl rfl rfl rfl).1

/-! ### C9: the five-question guarantee -/

def cxSessionAtLevel : InterviewSession :=
  { sessionId := "s1",
    userPreferences := ⟨some "Software Engineer", some "technical", none⟩,
    questions := [], currentQuestionIndex := 0,
    phase := .collectingExperienceLevel, answers := [], feedback := [] }

/-- C9 counterexample: a successfully parsed provider response containing a
single question entry leaves the session with one question, not five, after
the experience-level turn — the success path enforces no length. -/
theorem C9_five_questions_cx :
    cxSessionAtLevel.phase = InterviewPhase.collectingExperienceLevel ∧
    ((handlePhaseLogic cxSessionAtLevel "Senior Level"
      (QGenOutcome.success [⟨"Tell me about X.", "General", "Easy"⟩])
      none).1).questions.length = 1 :=
  ⟨rfl, rfl⟩

/-- C9 (amended): after the experience-level turn the session's question list
is exactly the generated list; on parse failure, provider error or provider
unavailability that list is the deterministic role-based fallback of exactly
5 questions, while on a successfully parsed response its length equals the
number of entries the provider returned (no length-5 enforcement). -/
theorem C9_question_count_amended :
    (∀ p, (generateInterviewQuestions p QGenOutcome.noModel).length = 5) ∧
    (∀ p, (generateInterviewQuestions p QGenOutcome.apiError).length = 5) ∧
    (∀ p, (generateInterviewQuestions p QGenOutcome.parseFailure).length = 5) ∧
    (∀ p qs, (generateInterviewQuestions p (QGenOutcome.success qs)).length = qs.length) ∧
    (∀ (s : InterviewSession) (input : String) (qo : QGenOutcome) (fb : Option String),
      s.phase = InterviewPhase.collectingExperienceLevel →
      (handlePhaseLogic s input qo fb).1.questions =
        generateInterviewQuestions
          { s.userPreferences with experienceLevel := some (strTrim input) } qo) := by
  refine ⟨?_, ?_, ?_, ?_, ?_⟩
  · intro p; rfl
  · intro p; rfl
  · intro p; rfl
  · intro p qs
    simp [generateInterviewQuestions]
  · intro s input qo fb h
    cases s with
    | mk sid prefs qs idx phase ans fbk =>
      simp only at h
      subst h
      rfl

/-- Witness for the amended C9 at the concrete level-collection session. -/
theorem C9_question_count_amended_witness :
    cxSessionAtLevel.phase = InterviewPhase.collectingExperienceLevel ∧
    (handlePhaseLogic cxSessionAtLevel "Senior Level" QGenOutcome.parseFailure none).1.questions =
      generateInterviewQuestions
        { cxSessionAtLevel.userPreferences with experienceLevel := some (strTrim "Senior Level") }
        QGenOutcome.parseFailure :=
  ⟨rfl, C9_question_count_amended.2.2.2.2 cxSessionAtLevel "Senior Level"
    QGenOutcome.parseFailure none rfl⟩

/-! ### Lemmas about the AI-artifact selection and counting -/

theorem pickLatest_foldl_some_ne_none (l : List FeedbackDoc) (e : FeedbackDoc) :
    l.foldl (fun acc d =>
      match acc with
      | none => some d
      | some x => if strLt x.createdAt d.createdAt then some d else some x) (some e) ≠ none := by
  induction l generalizing e with
  | nil => simp
  | cons d rest ih =>
    simp only [List.foldl_cons]
    split_ifs <;> exact ih _

theorem pickLatest_eq_none_iff (l : List FeedbackDoc) :
    pickLatestByCreatedAt l = none ↔ l = [] := by
  constructor
  · intro h
    cases l with
    | nil => rfl
    | cons d rest =>
      exact absurd h (by simpa [pickLatestByCreatedAt] using pickLatest_foldl_some_ne_none rest d)
  · intro h
    subst h
    rfl

theorem selectLatest_singleton (d : FeedbackDoc) (h : markLegacySource d = d) :
    selectLatestAiFeedback [d] = if isAiFeedbackDoc d then some d else none := by
  by_cases hd : isAiFeedbackDoc d <;>
    simp [selectLatestAiFeedback, List.filter, hd, h, pickLatestByCreatedAt]

theorem selectLatest_none_imp (vals : List FeedbackDoc) (p : FeedbackDoc → Bool)
    (h : selectLatestAiFeedback (vals.filter p) = none) :
    ∀ x ∈ vals, (p x && isAiFeedbackDoc x) = false := by
  intro x hx
  have hnil : (vals.filter p).filter isAiFeedbackDoc = [] := by
    have := (pickLatest_eq_none_iff _).mp h
    have hmap : ((vals.filter p).filter isAiFeedbackDoc).map markLegacySource = [] := this
    simpa using hmap
  by_contra hb
  simp only [Bool.and_eq_false_eq_eq_false_or_eq_false, not_or, Bool.not_eq_false] at hb
  have hmem : x ∈ (vals.filter p).filter isAiFeedbackDoc :=
    List.mem_filter.mpr ⟨List.mem_filter.mpr ⟨hx, hb.1⟩, hb.2⟩
  rw [hnil] at hmem
  exact absurd hmem (List.not_mem_nil x)

theorem selectLatest_filter_append_single
    (vals : List FeedbackDoc) (q : FeedbackDoc → Bool) (d : FeedbackDoc) (iid : String)
    (hzero : ∀ x ∈ vals, ((x.interviewId == iid) && isAiFeedbackDoc x) = false)
    (himp : ∀ x, q x = true → (x.interviewId == iid) = true)
    (hq : q d = true) (hai : isAiFeedbackDoc d = true) (hleg : markLegacySource d = d) :
    selectLatestAiFeedback ((vals ++ [d]).filter q) = some d := by
  have h1 : (vals.filter q).filter isAiFeedbackDoc = [] := by
    rw [List.filter_eq_nil_iff]
    intro x hx
    obtain ⟨hxv, hxq⟩ := List.mem_filter.mp hx
    have hiid := himp x hxq
    have := hzero x hxv
    simp only [hiid, Bool.true_and] at this
    simp [this]
  simp only [selectLatestAiFeedback, List.filter_append, h1]
  have h2 : ([d].filter q) = [d] := by simp [List.filter, hq]
  rw [h2]
  simp only [List.nil_append, List.filter_cons, List.filter_nil, hai, if_pos, List.map_cons,
    List.map_nil, hleg]
  rfl

theorem count_zero_imp_all_false (db : DB) (iid : String)
    (h : aiFeedbackCount db iid = 0) :
    ∀ x ∈ db.feedback.map Prod.snd, ((x.interviewId == iid) && isAiFeedbackDoc x) = false := by
  intro x hx
  have hnil : (db.feedback.map Prod.snd).filter
      (fun d => d.interviewId == iid && isAiFeedbackDoc d) = [] :=
    List.length_eq_zero.mp h
  by_contra hb
  have hmem : x ∈ (db.feedback.map Prod.snd).filter
      (fun d => d.interviewId == iid && isAiFeedbackDoc d) :=
    List.mem_filter.mpr ⟨hx, by simpa using hb⟩
  rw [hnil] at hmem
  exact absurd hmem (List.not_mem_nil x)

theorem existingAiFeedback_none_of_count_zero (db : DB) (iid uid : String)
    (h : aiFeedbackCount db iid = 0) :
    existingAiFeedback db iid uid = none := by
  have hall := count_zero_imp_all_false db iid h
  unfold existingAiFeedback selectLatestAiFeedback
  rw [pickLatest_eq_none_iff]
  rw [List.map_eq_nil_iff, List.filter_eq_nil_iff]
  intro x hx
  obtain ⟨hxv, hxq⟩ := List.mem_filter.mp hx
  have := hall x hxv
  have hiid : (x.interviewId == iid) = true := by
    simp only [Bool.and_eq_true] at hxq
    exact hxq.1
  simp only [hiid, Bool.true_and] at this
  simp [this]

theorem filter_snd_setDoc_eq (l : List (String × FeedbackDoc)) (k : String)
    (v : FeedbackDoc) (p : FeedbackDoc → Bool)
    (h : ∀ x ∈ l.map Prod.snd, p x = false) :
    ((setDoc l k v).map Prod.snd).filter p = if p v then [v] else [] := by
  induction l with
  | nil =>
    simp only [setDoc, List.map_cons, List.map_nil, List.filter]
    by_cases hv : p v <;> simp [hv]
  | cons pr rest ih =>
    have hhd : p pr.2 = false := h pr.2 (by simp)
    have htl : ∀ x ∈ rest.map Prod.snd, p x = false := by
      intro x hx
      exact h x (by simp [hx])
    by_cases hk : pr.1 = k
    · simp only [setDoc, if_pos hk, List.map_cons, List.filter_cons]
      have hrest : (rest.map Prod.snd).filter p = [] := List.filter_eq_nil_iff.mpr
        (by intro a ha; simp [htl a ha])
      by_cases hv : p v <;> simp [hv, hrest]
    · simp only [setDoc, if_neg hk, List.map_cons, List.filter_cons, hhd]
      simpa using ih htl

theorem filter_snd_setDoc_le (l : List (String × FeedbackDoc)) (k : String)
    (v : FeedbackDoc) (p : FeedbackDoc → Bool) (h : p v = false) :
    (((setDoc l k v).map Prod.snd).filter p).length ≤
      ((l.map Prod.snd).filter p).length := by
  induction l with
  | nil => simp [setDoc, List.filter, h]
  | cons pr rest ih =>
    by_cases hk : pr.1 = k
    · simp only [setDoc, if_pos hk, List.map_cons, List.filter_cons, h]
      by_cases hp : p pr.2 <;> simp [hp]
    · simp only [setDoc, if_neg hk, List.map_cons, List.filter_cons]
      by_cases hp : p pr.2 <;> simp [hp] <;> omega

theorem build_fst_interviewId (iid uid : String) (a : AnalysisOut) (t src fid now : String) :
    (buildAiFeedbackPayload iid uid a t src fid now).1.interviewId = iid := rfl

theorem aiCount_insert_le_one (fb : List (String × FeedbackDoc)) (k iid : String)
    (d : FeedbackDoc)
    (hprev : ((fb.map Prod.snd).filter
      (fun x => x.interviewId == iid && isAiFeedbackDoc x)).length ≤ 1)
    (hzero : ∀ x ∈ fb.map Prod.snd, d.interviewId = iid →
      (x.interviewId == iid && isAiFeedbackDoc x) = false) :
    (((setDoc fb k d).map Prod.snd).filter
      (fun x => x.interviewId == iid && isAiFeedbackDoc x)).length ≤ 1 := by
  by_cases hd : d.interviewId = iid
  · rw [filter_snd_setDoc_eq _ _ _ _ (fun x hx => hzero x hx hd)]
    split_ifs <;> simp
  · exact le_trans (filter_snd_setDoc_le _ _ _ _ (by simp [hd])) hprev

/-- The webhook's auto-generation block is guarded by the existing-artifact
check, so one delivery never takes the number of stored AI artifacts for an
interview above one. -/
theorem aiCount_webhook_le_one (db' : DB) (iid : String) (e : VapiEvent) (cfg : WebhookCfg)
    (hle : aiFeedbackCount db' iid ≤ 1) :
    aiFeedbackCount (vapiWebhook db' e cfg) iid ≤ 1 := by
  unfold vapiWebhook
  cases hf : webhookFindInterview db' e with
  | none => exact hle
  | some pr =>
    obtain ⟨jid, jitv⟩ := pr
    dsimp only
    split_ifs
    all_goals
      cases hsel : selectLatestAiFeedback
        ((db'.feedback.map Prod.snd).filter (fun d => d.interviewId == jid))
    all_goals try dsimp only
    all_goals
      first
      | exact hle
      | (refine aiCount_insert_le_one db'.feedback cfg.freshId iid _ hle ?_;
         intro x hx hdj;
         rw [build_fst_interviewId] at hdj;
         subst hdj;
         exact selectLatest_none_imp _ _ hsel x hx)

/-! ### C1: feedback synthesis idempotence -/

/-- C1: feedback synthesis is idempotent. From a completed, owned interview
with a stored non-blank transcript and no AI-sourced artifact, one
`get_ai_feedback` call stores exactly one AI-sourced artifact and returns its
payload; every subsequent call (any `force`, provider outcome or fresh id)
returns the already-stored artifact unchanged and leaves the store untouched;
any webhook delivery for this interview leaves the feedback store unchanged;
and webhook processing never raises the AI artifact count above one. -/
theorem C1_feedback_idempotent
    (db : DB) (iid uid : String) (force gcfg : Bool) (go : GeminiOutcome)
    (vt : Option String) (fid now : String) (itv : Interview) (td : TranscriptDoc)
    (h1 : getDoc db.interviews iid = some itv)
    (h2 : itv.userId = uid)
    (h3 : itv.status = "completed")
    (h4 : getDoc db.transcripts iid = some td)
    (h5 : strTrim td.transcript ≠ "")
    (h6 : aiFeedbackCount db iid = 0)
    (h7 : getDoc db.feedback fid = none) :
    ∃ (db1 : DB),
      getAiFeedback db iid uid force gcfg go vt fid now = (db1, FeedbackOutcome.ok
        (buildAiFeedbackPayload iid uid
          (analyzeInterviewTranscript gcfg itv.jobTitle itv.itype go)
          td.transcript "ai_on_demand" fid now).2) ∧
      getDoc db1.feedback fid = some
        (buildAiFeedbackPayload iid uid
          (analyzeInterviewTranscript gcfg itv.jobTitle itv.itype go)
          td.transcript "ai_on_demand" fid now).1 ∧
      aiFeedbackCount db1 iid = 1 ∧
      (∀ (force2 gcfg2 : Bool) (go2 : GeminiOutcome) (vt2 : Option String) (fid2 now2 : String),
        getAiFeedback db1 iid uid force2 gcfg2 go2 vt2 fid2 now2 =
          (db1, FeedbackOutcome.ok (feedbackDocToResponse
            (buildAiFeedbackPayload iid uid
              (analyzeInterviewTranscript gcfg itv.jobTitle itv.itype go)
              td.transcript "ai_on_demand" fid now).1))) ∧
      (∀ (e : VapiEvent) (cfg : WebhookCfg), e.metaInterviewId = some iid →
        (vapiWebhook db1 e cfg).feedback = db1.feedback) ∧
      (∀ (db' : DB) (e : VapiEvent) (cfg : WebhookCfg),
        aiFeedbackCount db' iid ≤ 1 → aiFeedbackCount (vapiWebhook db' e cfg) iid ≤ 1) := by
  have hne : td.transcript ≠ "" := strTrim_ne_nil h5
  have hex : existingAiFeedback db iid uid = none :=
    existingAiFeedback_none_of_count_zero db iid uid h6
  set A := analyzeInterviewTranscript gcfg itv.jobTitle itv.itype go with hA
  set P := buildAiFeedbackPayload iid uid A td.transcript "ai_on_demand" fid now with hP
  have hdoc_iid : P.1.interviewId = iid := rfl
  have hdoc_uid : P.1.userId = uid := rfl
  have hdoc_src : P.1.source = some "ai_on_demand" := rfl
  have hai : isAiFeedbackDoc P.1 = true := by
    simp [isAiFeedbackDoc, hdoc_src, aiFeedbackSources]
  have hleg : markLegacySource P.1 = P.1 := by
    simp [markLegacySource, hdoc_src]
  refine ⟨{ db with
      feedback := setDoc db.feedback fid P.1,
      interviews := updateDoc
        (fun i => { i with overallScore := some P.1.overallScore,
                           updatedAt := P.1.updatedAt }) db.interviews iid },
    ?_, ?_, ?_, ?_, ?_, ?_⟩
  · simp [getAiFeedback, finishFeedback, h1, h2, h3, hex, h4, hne, h5, ← hA, ← hP]
  · exact getDoc_setDoc_self _ _ _
  · have hall := count_zero_imp_all_false db iid h6
    show (((setDoc db.feedback fid P.1).map Prod.snd).filter
      (fun d => d.interviewId == iid && isAiFeedbackDoc d)).length = 1
    rw [filter_snd_setDoc_eq _ _ _ _ hall]
    simp [hdoc_iid, hai]
  · have hget1 : getDoc (updateDoc
        (fun i => { i with overallScore := some P.1.overallScore,
                           updatedAt := P.1.updatedAt }) db.interviews iid) iid =
        some { itv with overallScore := some P.1.overallScore,
                        updatedAt := P.1.updatedAt } := by
      rw [getDoc_updateDoc_self, h1]
      rfl
    have hvals : (setDoc db.feedback fid P.1).map Prod.snd =
        db.feedback.map Prod.snd ++ [P.1] := snd_setDoc_of_fresh _ _ _ h7
    have hex1 : existingAiFeedback
        { db with
          feedback := setDoc db.feedback fid P.1,
          interviews := updateDoc
            (fun i => { i with overallScore := some P.1.overallScore,
                               updatedAt := P.1.updatedAt }) db.interviews iid }
        iid uid = some P.1 := by
      show selectLatestAiFeedback
        (((setDoc db.feedback fid P.1).map Prod.snd).filter
          (fun d => d.interviewId == iid && d.userId == uid)) = some P.1
      rw [hvals]
      refine selectLatest_filter_append_single _ _ _ iid
        (count_zero_imp_all_false db iid h6) ?_ ?_ hai hleg
      · intro x hx
        simp only [Bool.and_eq_true] at hx
        exact hx.1
      · simp [hdoc_iid, hdoc_uid]
    intro force2 gcfg2 go2 vt2 fid2 now2
    simp [getAiFeedback, hget1, hex1, h2, h3]
  · intro e cfg hmeta
    have hget1 : getDoc (updateDoc
        (fun i => { i with overallScore := some P.1.overallScore,
                           updatedAt := P.1.updatedAt }) db.interviews iid) iid =
        some { itv with overallScore := some P.1.overallScore,
                        updatedAt := P.1.updatedAt } := by
      rw [getDoc_updateDoc_self, h1]
      rfl
    have hvals : (setDoc db.feedback fid P.1).map Prod.snd =
        db.feedback.map Prod.snd ++ [P.1] := snd_setDoc_of_fresh _ _ _ h7
    have hselw : selectLatestAiFeedback
        (((setDoc db.feedback fid P.1).map Prod.snd).filter
          (fun d => d.interviewId == iid)) = some P.1 := by
      rw [hvals]
      refine selectLatest_filter_append_single _ _ _ iid
        (count_zero_imp_all_false db iid h6) ?_ ?_ hai hleg
      · intro x hx
        exact hx
      · simp [hdoc_iid]
    simp only [vapiWebhook, webhookFindInterview, hmeta, hget1]
    split_ifs
    all_goals try rw [hselw]
    all_goals rfl
  · intro db' e cfg hle
    exact aiCount_webhook_le_one db' iid e cfg hle

/-- Witness for C1 at a concrete completed interview with a stored transcript
and an empty feedback collection. -/
theorem C1_feedback_idempotent_witness :
    aiFeedbackCount cxDbWithTranscript "iv1" = 0 ∧
    ∃ db1, getAiFeedback cxDbWithTranscript "iv1" "user-1" false false
        GeminiOutcome.providerError none "fid-1" "t9" =
      (db1, FeedbackOutcome.ok
        (buildAiFeedbackPayload "iv1" "user-1"
          (analyzeInterviewTranscript false baseInterview.jobTitle baseInterview.itype
            GeminiOutcome.providerError)
          cxStoredTranscript.transcript "ai_on_demand" "fid-1" "t9").2) ∧
      aiFeedbackCount db1 "iv1" = 1 := by
  refine ⟨rfl, ?_⟩
  obtain ⟨db1, hcall, hdoc, hcount, hrest⟩ :=
    C1_feedback_idempotent cxDbWithTranscript "iv1" "user-1" false false
      GeminiOutcome.providerError none "fid-1" "t9" baseInterview cxStoredTranscript
      rfl rfl rfl rfl (by decide) rfl rfl
  exact ⟨db1, hcall, hcount⟩

end EchoHire
